import Mathlib

/-!
Shallow embedding of the video-quality-detector worker
(src/videoProcessor.js, src/aiDetector.js, src/index.js).

Conventions of the embedding:
* A JS `ArrayBuffer`/`Uint8Array` is a `List ℕ` of byte values; reading
  `header[i]` on a short buffer yields `undefined` in JS, and
  `undefined === v` is `false`, so an out-of-range read is modelled as a
  non-match (`List.get?` returning `none`).
* JS numbers are modelled as `ℚ`.  The two places where a non-finite JS
  number can arise are modelled explicitly: `Math.max()` of an empty
  spread is `-Infinity`, modelled as `⊥ : WithBot ℚ` (`List.maximum`);
  the mean of an empty delta list is `0/0 = NaN`, modelled as
  `none : Option ℚ`.  A comparison `NaN > t` or `-Infinity > t` is
  `false` in JS, which the helpers `jsGtO` / `jsGtW` reproduce.
* The Hugging Face classification capability (an HTTP call in
  `analyzeFrameWithHF`) is an external black box; it is a parameter
  `classify : ℕ → Except HFError ModelOutput` giving, per frame index,
  either the parsed JSON response or a failure (transient 503
  "model warming up" or any other request error — the code drops the
  frame in both cases).
-/

/-- Container formats recognised by the header sniffing code. -/
inductive Codec
  | MP4
  | AVI
  | WebM
deriving DecidableEq, Repr

/-- JS `header[i] === v`: `false` when `i` is out of range (`undefined`). -/
def matchAt (buf : List ℕ) (i v : ℕ) : Bool :=
  buf.get? i == some v

/-- MP4 magic: bytes 4..7 are "ftyp" (src/videoProcessor.js lines 23, 55). -/
def isMP4Header (buf : List ℕ) : Bool :=
  matchAt buf 4 0x66 && matchAt buf 5 0x74 && matchAt buf 6 0x79 && matchAt buf 7 0x70

/-- AVI magic: bytes 0..3 are "RIFF" (src/videoProcessor.js lines 27, 59). -/
def isAVIHeader (buf : List ℕ) : Bool :=
  matchAt buf 0 0x52 && matchAt buf 1 0x49 && matchAt buf 2 0x46 && matchAt buf 3 0x46

/-- WebM/EBML magic: bytes 0..3 are 1A 45 DF A3 (src/videoProcessor.js lines 31, 63). -/
def isWebMHeader (buf : List ℕ) : Bool :=
  matchAt buf 0 0x1A && matchAt buf 1 0x45 && matchAt buf 2 0xDF && matchAt buf 3 0xA3

/-- The analysis record built by `analyzeVideoMetadata`.  The JS object also
carries always-`null` fields `duration`, `resolution`, `frameRate`, which no
claim touches and which are omitted here.  `codec = none` models the JS
`null` ("unknown"). -/
structure Metadata where
  size : ℕ
  mimeType : String
  codec : Option Codec
deriving DecidableEq, Repr

/-- src/videoProcessor.js `analyzeVideoMetadata`.  The code slices the first
12 bytes and tests the three magic patterns in an if/else-if chain; all
indices read are < 12, so testing on the whole buffer is equivalent. -/
def analyzeVideoMetadata (buf : List ℕ) (mimeType : String) : Metadata :=
  { size := buf.length
    mimeType := mimeType
    codec :=
      if isMP4Header buf then some Codec.MP4
      else if isAVIHeader buf then some Codec.AVI
      else if isWebMHeader buf then some Codec.WebM
      else none }

/-- Issue string pushed when the buffer is under 1024 bytes
("文件过小，可能不完整"). -/
def tooSmallMsg : String := "文件过小，可能不完整"

/-- Issue string pushed when no magic header matches
("文件头异常，可能已损坏"). -/
def badHeaderMsg : String := "文件头异常，可能已损坏"

/-- Result of `detectCorruption`. -/
structure CorruptionReport where
  hasIssue : Bool
  issues : List String
deriving DecidableEq, Repr

/-- src/videoProcessor.js `detectCorruption`: size floor first (early
return, so the header check is short-circuited), then the same three
header matches over the first 20 bytes (all indices read are < 20, so
testing the whole buffer is equivalent). -/
def detectCorruption (buf : List ℕ) : CorruptionReport :=
  if buf.length < 1024 then
    { hasIssue := true, issues := [tooSmallMsg] }
  else
    let hasValidHeader := isMP4Header buf || isAVIHeader buf || isWebMHeader buf
    let issues := if hasValidHeader then [] else [badHeaderMsg]
    { hasIssue := decide (0 < issues.length), issues := issues }

/-- One sampled window produced by `sampleVideoData`.  For an empty chunk
(JS `chunk.length = 0`, possible only when the buffer itself is empty) the
JS mean/variance are `NaN`; the `ℚ` division-by-zero value taken here is
outside the scope of every theorem below, all of which keep every chunk
non-empty. -/
structure Sample where
  offset : ℕ
  mean : ℚ
  variance : ℚ
  data : List ℕ
deriving DecidableEq, Repr

/-- src/videoProcessor.js `sampleVideoData`: `chunkSize = floor(len / n)`,
window `i` is `slice(i*chunkSize, i*chunkSize + 100)`, per-window arithmetic
mean and population variance, first 20 bytes retained. -/
def sampleVideoData (buf : List ℕ) (sampleCount : ℕ := 10) : List Sample :=
  let chunkSize := buf.length / sampleCount
  (List.range sampleCount).map fun i =>
    let offset := i * chunkSize
    let chunk := (buf.drop offset).take 100
    let mean : ℚ := ((chunk.map (fun b => (b : ℚ))).sum) / chunk.length
    let variance : ℚ := ((chunk.map (fun b => ((b : ℚ) - mean) ^ 2)).sum) / chunk.length
    { offset := offset, mean := mean, variance := variance, data := chunk.take 20 }

/-- The five-issue boolean vector shared by every detector stage. -/
structure IssueVector where
  glitch : Bool
  corruption : Bool
  stutter : Bool
  colorShift : Bool
  missingPerson : Bool
deriving DecidableEq, Repr

/-- The all-false issue vector (every JS results object starts this way). -/
def IssueVector.allFalse : IssueVector :=
  { glitch := false, corruption := false, stutter := false
    colorShift := false, missingPerson := false }

/-- JS `|v[i] - v[i-1]|` for `i = 1 .. len-1` (both `extractFeatures`
implementations build this list the same way). -/
def varianceChanges (vs : List ℚ) : List ℚ :=
  List.zipWith (fun prev cur => |cur - prev|) vs vs.tail

/-- JS `x > t` where `x` may be the `NaN` produced by `0/0`
(modelled `none`): any comparison against `NaN` is `false`. -/
def jsGtO (x : Option ℚ) (t : ℚ) : Bool :=
  match x with
  | none => false
  | some q => decide (t < q)

/-- JS `x > t` where `x` may be the `-Infinity` produced by `Math.max()`
of an empty spread (modelled `⊥ : WithBot ℚ`): `-Infinity > t` is `false`. -/
def jsGtW (x : WithBot ℚ) (t : ℚ) : Bool :=
  decide ((t : WithBot ℚ) < x)

/-- Feature record built by src/index.js `extractFeatures` (lines 237-260).
`varianceVolatility` is `reduce(+)/length`, i.e. `NaN` (here `none`) when
there are fewer than 2 samples; `maxVarianceChange` is guarded:
`length > 0 ? Math.max(...) : 0`. -/
structure FeaturesIdx where
  dataVariance : List ℚ
  dataMean : List ℚ
  fileSize : ℕ
  codec : Option Codec
  varianceVolatility : Option ℚ
  maxVarianceChange : ℚ
deriving DecidableEq, Repr

/-- src/index.js `extractFeatures`. -/
def extractFeatures (samples : List Sample) (md : Metadata) : FeaturesIdx :=
  let dataVariance := samples.map Sample.variance
  let changes := varianceChanges dataVariance
  { dataVariance := dataVariance
    dataMean := samples.map Sample.mean
    fileSize := md.size
    codec := md.codec
    varianceVolatility :=
      if changes.isEmpty then none else some (changes.sum / changes.length)
    maxVarianceChange := changes.maximum.unbot' 0 }

/-- Feature record built by src/aiDetector.js `extractFeatures`
(lines 121-145).  Unlike the src/index.js copy, `maxVarianceChange` is the
unguarded `Math.max(...varianceChanges)`, which is `-Infinity` (`⊥`) when
no deltas exist. -/
structure FeaturesHF where
  dataVariance : List ℚ
  dataMean : List ℚ
  fileSize : ℕ
  codec : Option Codec
  varianceVolatility : Option ℚ
  maxVarianceChange : WithBot ℚ
deriving DecidableEq, Repr

/-- src/aiDetector.js `extractFeatures`. -/
def extractFeaturesHF (samples : List Sample) (md : Metadata) : FeaturesHF :=
  let dataVariance := samples.map Sample.variance
  let changes := varianceChanges dataVariance
  { dataVariance := dataVariance
    dataMean := samples.map Sample.mean
    fileSize := md.size
    codec := md.codec
    varianceVolatility :=
      if changes.isEmpty then none else some (changes.sum / changes.length)
    maxVarianceChange := changes.maximum }

/-- Output of either `ruleBasedDetection` copy: the five flags plus the
detail strings (the JS object has no `issues` sub-object — the flags sit at
the top level, which is what makes the orchestrator's
`Object.assign(issues, result.issues || {})` a no-op). -/
structure RuleResults where
  glitch : Bool
  corruption : Bool
  stutter : Bool
  colorShift : Bool
  missingPerson : Bool
  details : List String
deriving DecidableEq, Repr

/-- Detail pushed when `varianceVolatility > 5000`. -/
def glitchMsg : String := "检测到数据异常波动，可能存在花屏问题"

/-- Detail pushed when the codec was not recognised. -/
def unknownCodecMsg : String := "无法识别视频编码格式，可能存在乱码或文件损坏"

/-- Detail pushed when `maxVarianceChange > 10000`. -/
def stutterMsg : String := "检测到数据不连续性，可能存在卡顿问题"

/-- Fixed closing detail of the src/index.js rule engine. -/
def frameHintMsgIdx : String := "偏色和人物画面检测需要视频帧图像分析（请启用 AI 检测）"

/-- Fixed closing detail of the src/aiDetector.js rule engine. -/
def frameHintMsgHF : String := "偏色和人物画面检测需要视频帧图像分析"

/-- src/index.js `ruleBasedDetection` (lines 265-297): fixed thresholds
5000 / 10000, corruption iff `!metadata.codec`, details pushed in source
order, `colorShift` / `missingPerson` never set. -/
def ruleBasedDetection (f : FeaturesIdx) (md : Metadata) : RuleResults :=
  let glitch := jsGtO f.varianceVolatility 5000
  let corruption := md.codec.isNone
  let stutter := decide ((10000 : ℚ) < f.maxVarianceChange)
  { glitch := glitch, corruption := corruption, stutter := stutter
    colorShift := false, missingPerson := false
    details :=
      (if glitch then [glitchMsg] else []) ++
      (if corruption then [unknownCodecMsg] else []) ++
      (if stutter then [stutterMsg] else []) ++ [frameHintMsgIdx] }

/-- src/aiDetector.js `ruleBasedDetection` (lines 150-182): identical
thresholds, but `maxVarianceChange` may be `-Infinity` and the closing
detail string differs. -/
def ruleBasedDetectionHF (f : FeaturesHF) (md : Metadata) : RuleResults :=
  let glitch := jsGtO f.varianceVolatility 5000
  let corruption := md.codec.isNone
  let stutter := jsGtW f.maxVarianceChange 10000
  { glitch := glitch, corruption := corruption, stutter := stutter
    colorShift := false, missingPerson := false
    details :=
      (if glitch then [glitchMsg] else []) ++
      (if corruption then [unknownCodecMsg] else []) ++
      (if stutter then [stutterMsg] else []) ++ [frameHintMsgHF] }

/-- One `{label, score}` item of a classification response.  A missing
`label` key is `none`; the score is never read by the parser. -/
structure ClassItem where
  label : Option String
  score : ℚ
deriving DecidableEq, Repr

/-- The JSON value returned by the classification capability: either an
ordered sequence of `{label, score}` items or a single object whose
`label` may be absent.  (An array never satisfies `modelResult.label` and
an object never satisfies `Array.isArray`, so the two JS branches are the
two constructors.) -/
inductive ModelOutput
  | arr : List ClassItem → ModelOutput
  | obj : Option String → ModelOutput
deriving DecidableEq, Repr

/-- Character-list infix test (structurally recursive so that it
evaluates): does `pat` occur contiguously inside the second list? -/
def listHasInfix (pat : List Char) : List Char → Bool
  | [] => pat.isEmpty
  | c :: rest => pat.isPrefixOf (c :: rest) || listHasInfix pat rest

/-- JS `s.includes(pat)` (for the ASCII patterns used here, code-unit
containment coincides with character-list containment). -/
def jsIncludes (s pat : String) : Bool :=
  listHasInfix pat.data s.data

/-- JS `String.prototype.toLowerCase` restricted to the ASCII range, which
is all the parser's keyword matching depends on. -/
def jsToLower (s : String) : String :=
  ⟨s.data.map Char.toLower⟩

/-- JS `arr.join(' ')`. -/
def joinSpace (ls : List String) : String :=
  ⟨List.intercalate " ".data (ls.map String.data)⟩

/-- JS `item.label ? item.label.toLowerCase() : ''` — an absent or empty
label contributes the empty string. -/
def labelText (it : ClassItem) : String :=
  jsToLower (it.label.getD "")

/-- src/aiDetector.js `parseModelOutput` (lines 252-290).  Array branch:
join the lower-cased labels with spaces and look for "glitch" / "corrupt" /
"error".  Single-object branch (guarded by JS truthiness of `.label`):
look only for "glitch" / "corrupt" — note "error" is absent there. -/
def parseModelOutput (m : ModelOutput) : IssueVector :=
  match m with
  | ModelOutput.arr items =>
    let labels := joinSpace (items.map labelText)
    let hit := jsIncludes labels "glitch" || jsIncludes labels "corrupt" ||
      jsIncludes labels "error"
    { IssueVector.allFalse with glitch := hit, corruption := hit }
  | ModelOutput.obj lbl =>
    match lbl with
    | none => IssueVector.allFalse
    | some l =>
      if l = "" then IssueVector.allFalse
      else
        let ll := jsToLower l
        let hit := jsIncludes ll "glitch" || jsIncludes ll "corrupt"
        { IssueVector.allFalse with glitch := hit, corruption := hit }

/-- Failure modes of one classification request: HTTP 503 "model warming
up" (transient) or any other request error.  `analyzeFrameWithHF` throws
in both cases and the caller's per-frame catch drops the frame, so the two
are handled identically. -/
inductive HFError
  | transient
  | requestError
deriving DecidableEq, Repr

/-- Per-frame result of src/aiDetector.js `analyzeFrameWithHF`. -/
structure FrameResult where
  frameIndex : ℕ
  rawResult : ModelOutput
  issues : IssueVector
deriving DecidableEq, Repr

/-- src/aiDetector.js `analyzeFrameWithHF` (lines 191-247): submit the
frame to the capability; on success wrap the parsed issues, on failure
(including 503) re-throw.  The frame payload itself only flows into the
HTTP body, so the capability is indexed by frame position. -/
def analyzeFrameWithHF (classify : ℕ → Except HFError ModelOutput)
    (frameIndex : ℕ) : Except HFError FrameResult :=
  (classify frameIndex).map fun r =>
    { frameIndex := frameIndex, rawResult := r, issues := parseModelOutput r }

/-- Count of successful frames whose vector sets a given kind. -/
def issueCount (frameResults : List FrameResult) (kind : IssueVector → Bool) : ℕ :=
  (frameResults.filter fun r => kind r.issues).length

/-- src/aiDetector.js `aggregateFrameResults` (lines 295-332): per kind,
count the frames reporting it and compare against
`frameResults.length * 0.3` (at the integer boundary counts used here the
JS float product agrees with the exact rational). -/
def aggregateFrameResults (frameResults : List FrameResult) : IssueVector :=
  let threshold : ℚ := (frameResults.length : ℚ) * 0.3
  { glitch := decide (threshold < (issueCount frameResults IssueVector.glitch : ℚ))
    corruption := decide (threshold < (issueCount frameResults IssueVector.corruption : ℚ))
    stutter := decide (threshold < (issueCount frameResults IssueVector.stutter : ℚ))
    colorShift := decide (threshold < (issueCount frameResults IssueVector.colorShift : ℚ))
    missingPerson := decide (threshold < (issueCount frameResults IssueVector.missingPerson : ℚ)) }

/-- The results object built by `detectWithHuggingFace`,
`detectWithCloudflareAI` and `detectWithOpenAI`: the five flags at top
level (there is no `issues` sub-object), detail strings, confidence. -/
structure HFResults where
  glitch : Bool
  corruption : Bool
  stutter : Bool
  colorShift : Bool
  missingPerson : Bool
  details : List String
  confidence : ℚ
deriving DecidableEq, Repr

/-- Detail pushed after a successful frame batch:
`使用 AI 模型分析了 N 个视频帧`. -/
def analyzedFramesMsg (n : ℕ) : String :=
  "使用 AI 模型分析了 " ++ toString n ++ " 个视频帧"

/-- Detail pushed when the key is set but no frames were supplied. -/
def noFramesMsg : String := "提示：未检测到视频帧图像，使用规则引擎检测"

/-- Unconditional closing detail 1 of `detectWithHuggingFace`. -/
def hfClosingMsg1 : String := "使用规则引擎和数据分析进行检测"

/-- Unconditional closing detail 2 of `detectWithHuggingFace`. -/
def hfClosingMsg2 : String := "提示：完整检测需要视频帧提取，建议使用 FFmpeg 预处理"

/-- src/aiDetector.js `detectWithHuggingFace` (lines 10-79).
`hasKey` is the truthiness of `env.HF_API_KEY`; `numFrames` is
`metadata.extractedFrames.length` (`extractedFrames || []`).  Stepping
through the source:
* `results` starts all-false with `details = []`, `confidence = 0`;
* with a key and at least one frame, the first `min(numFrames, 5)` frames
  are classified; per-frame failures are caught and become `null`, the
  `null`s are filtered out, and if any success remains the aggregated
  flags are `Object.assign`ed over `results`, `confidence` becomes
  `Math.max(confidence, 0.85)` and a detail is pushed;
* then — unconditionally — `Object.assign(results, ruleBasedResults)`
  overwrites all five flags *and* the `details` array with the rule
  engine's, and `results.confidence = 0.7` overwrites the confidence,
  before the two closing details are pushed.
The outer `try/catch` is unreachable here because every capability
failure is already caught per frame. -/
def detectWithHuggingFace (classify : ℕ → Except HFError ModelOutput)
    (samples : List Sample) (md : Metadata) (numFrames : ℕ)
    (hasKey : Bool) : HFResults :=
  let ruleBasedResults := ruleBasedDetectionHF (extractFeaturesHF samples md) md
  let base : HFResults :=
    { glitch := false, corruption := false, stutter := false
      colorShift := false, missingPerson := false
      details := [], confidence := 0 }
  let afterAI : HFResults :=
    if hasKey then
      if 0 < numFrames then
        let frameResults :=
          (List.range (min numFrames 5)).map fun i =>
            (analyzeFrameWithHF classify i).toOption
        let validResults := frameResults.filterMap id
        if 0 < validResults.length then
          let aiDetectedIssues := aggregateFrameResults validResults
          { base with
            glitch := aiDetectedIssues.glitch
            corruption := aiDetectedIssues.corruption
            stutter := aiDetectedIssues.stutter
            colorShift := aiDetectedIssues.colorShift
            missingPerson := aiDetectedIssues.missingPerson
            confidence := max base.confidence 0.85
            details := base.details ++ [analyzedFramesMsg validResults.length] }
        else base
      else { base with details := base.details ++ [noFramesMsg] }
    else base
  { afterAI with
    glitch := ruleBasedResults.glitch
    corruption := ruleBasedResults.corruption
    stutter := ruleBasedResults.stutter
    colorShift := ruleBasedResults.colorShift
    missingPerson := ruleBasedResults.missingPerson
    details := ruleBasedResults.details ++ [hfClosingMsg1, hfClosingMsg2]
    confidence := 0.7 }

/-- src/aiDetector.js `detectWithCloudflareAI` (lines 84-116): with the
binding configured it only pushes a placeholder detail and sets confidence
0.8; without it the thrown error is caught and the `confidence = 0`
results object is returned with an error detail. -/
def detectWithCloudflareAI (aiConfigured : Bool) : HFResults :=
  if aiConfigured then
    { glitch := false, corruption := false, stutter := false
      colorShift := false, missingPerson := false
      details := ["Cloudflare AI 检测（需要配置相应模型）"], confidence := 0.8 }
  else
    { glitch := false, corruption := false, stutter := false
      colorShift := false, missingPerson := false
      details := ["Cloudflare AI 检测错误: Cloudflare AI 未配置"], confidence := 0 }

/-- JS `x || d` on numbers: `0` (and `NaN`) are falsy.  Used for
`result.confidence || 0.8` and `hfResult.confidence || 0.7`. -/
def jsOrQ (x d : ℚ) : ℚ :=
  if x = 0 then d else x

/-- The value returned by src/index.js `detectVideoIssues`. -/
structure DetectionResult where
  issues : IssueVector
  details : List String
  confidence : ℚ
deriving DecidableEq, Repr

/-- Detail pushed on the rule-only path of `detectVideoIssues`. -/
def aiDisabledMsg : String := "使用规则引擎检测（AI 已关闭）"

/-- src/index.js `detectVideoIssues` (lines 161-232).  `envAI` is the
truthiness of `env.AI`, `hasKey` of `env.HF_API_KEY`.  The local `issues`
vector picks up `corruption` from the corruption check; afterwards every
path runs `Object.assign(issues, result.issues || {})` — but none of
`ruleBasedDetection`, `detectWithCloudflareAI`, `detectWithHuggingFace`
returns an object with an `issues` field (their flags are top-level), so
each of those merges is `Object.assign(issues, {})`, a no-op, modelled as
such.  The `catch` fallback (confidence 0.5) is unreachable because both
AI detectors catch internally. -/
def detectVideoIssues (classify : ℕ → Except HFError ModelOutput)
    (samples : List Sample) (md : Metadata)
    (corruptionCheck : CorruptionReport) (envAI hasKey : Bool)
    (numFrames : ℕ) (useAI : Bool) : DetectionResult :=
  let issues : IssueVector :=
    { IssueVector.allFalse with corruption := corruptionCheck.hasIssue }
  let details : List String :=
    if corruptionCheck.hasIssue then corruptionCheck.issues else []
  if !useAI then
    let ruleBasedResults := ruleBasedDetection (extractFeatures samples md) md
    { issues := issues
      details := details ++ ruleBasedResults.details ++ [aiDisabledMsg]
      confidence := 0.6 }
  else if envAI then
    let result := detectWithCloudflareAI true
    { issues := issues
      details := details ++ result.details
      confidence := jsOrQ result.confidence 0.8 }
  else
    let hfResult := detectWithHuggingFace classify samples md numFrames hasKey
    { issues := issues
      details := details ++ hfResult.details
      confidence := jsOrQ hfResult.confidence 0.7 }

/-! Concrete fixtures used by the closed evaluations and witnesses. -/

/-- Metadata of a well-formed 2 KiB MP4 upload. -/
def mdMP4 : Metadata := { size := 2048, mimeType := "video/mp4", codec := some Codec.MP4 }

/-- Two samples whose variance jumps by 20000, putting the rule engine
past both the 5000 volatility and the 10000 max-change thresholds. -/
def samples2 : List Sample :=
  [ { offset := 0, mean := 0, variance := 0, data := [] },
    { offset := 100, mean := 0, variance := 20000, data := [] } ]

/-- A capability that fails every request with a plain request error. -/
def classifyFail : ℕ → Except HFError ModelOutput :=
  fun _ => Except.error HFError.requestError

/-- A capability that answers every request with a "glitch"-labelled
classification. -/
def classifyGlitch : ℕ → Except HFError ModelOutput :=
  fun _ => Except.ok (ModelOutput.arr [{ label := some "glitch", score := 9/10 }])

/-- A corruption report with no findings. -/
def cleanReport : CorruptionReport := { hasIssue := false, issues := [] }

/-- The corruption report of an undersized buffer. -/
def tooSmallReport : CorruptionReport := { hasIssue := true, issues := [tooSmallMsg] }

/-- A frame result whose only raised kind is `glitch` (or nothing). -/
def glitchFrame (g : Bool) : FrameResult :=
  { frameIndex := 0, rawResult := ModelOutput.obj none
    issues := { IssueVector.allFalse with glitch := g } }

/-- Ten frame results, exactly three of which report `glitch`. -/
def tenFramesThreeGlitch : List FrameResult :=
  [glitchFrame true, glitchFrame true, glitchFrame true, glitchFrame false,
   glitchFrame false, glitchFrame false, glitchFrame false, glitchFrame false,
   glitchFrame false, glitchFrame false]

/-- Ten frame results, exactly four of which report `glitch`. -/
def tenFramesFourGlitch : List FrameResult :=
  [glitchFrame true, glitchFrame true, glitchFrame true, glitchFrame true,
   glitchFrame false, glitchFrame false, glitchFrame false, glitchFrame false,
   glitchFrame false, glitchFrame false]


/-! Theorems. -/

/-- An out-of-range header read (`header[i]` is `undefined`) never matches. -/
theorem matchAt_of_len_le (buf : List ℕ) (i v : ℕ) (h : buf.length ≤ i) :
    matchAt buf i v = false := by
  simp [matchAt, List.get?_eq_getElem?, List.getElem?_eq_none h]

/-- C6: `detectCorruption` flags any buffer under 1024 bytes with only the
size issue (the header check is short-circuited by the early return); flags
any buffer of at least 1024 bytes matching none of the MP4/AVI/WebM magic
patterns with the header issue; and reports no issue otherwise. -/
theorem detectCorruption_cases (buf : List ℕ) :
    (buf.length < 1024 →
      detectCorruption buf = { hasIssue := true, issues := [tooSmallMsg] }) ∧
    (1024 ≤ buf.length →
      (isMP4Header buf || isAVIHeader buf || isWebMHeader buf) = false →
      detectCorruption buf = { hasIssue := true, issues := [badHeaderMsg] }) ∧
    (1024 ≤ buf.length →
      (isMP4Header buf || isAVIHeader buf || isWebMHeader buf) = true →
      detectCorruption buf = { hasIssue := false, issues := [] }) := by
  refine ⟨fun h => ?_, fun h hm => ?_, fun h hm => ?_⟩
  · simp [detectCorruption, h]
  · simp [detectCorruption, Nat.not_lt.mpr h, hm]
  · simp [detectCorruption, Nat.not_lt.mpr h, hm]

/-- Witness for C6: a 1024-byte zero buffer clears the size floor but has
no valid magic header. -/
theorem detectCorruption_cases_witness :
    detectCorruption (List.replicate 1024 0) =
      { hasIssue := true, issues := [badHeaderMsg] } :=
  (detectCorruption_cases (List.replicate 1024 0)).2.1
    (le_of_eq (List.length_replicate 1024 0).symm)
    (by norm_num [isMP4Header, isAVIHeader, isWebMHeader, matchAt,
      List.get?_eq_getElem?, List.getElem?_replicate])

/-- C10: every header byte read out of range behaves as a non-match
(`undefined === v` is `false`), so `analyzeVideoMetadata` and
`detectCorruption` — both total functions of the buffer in this
embedding, as in the source — degrade gracefully on buffers shorter
than the 12 or 20 bytes they slice: any buffer too short to contain a
complete magic pattern sniffs as codec `unknown`, and any undersized
buffer yields the too-small issue rather than a fault. -/
theorem header_reads_out_of_range_safe (buf : List ℕ) (mime : String) :
    (∀ i v, buf.length ≤ i → matchAt buf i v = false) ∧
    (buf.length < 4 → (analyzeVideoMetadata buf mime).codec = none) ∧
    (buf.length < 1024 →
      detectCorruption buf = { hasIssue := true, issues := [tooSmallMsg] }) := by
  refine ⟨fun i v h => matchAt_of_len_le buf i v h, fun h => ?_, fun h => ?_⟩
  · have h3 : ∀ v, matchAt buf 3 v = false :=
      fun v => matchAt_of_len_le buf 3 v (by omega)
    have h7 : ∀ v, matchAt buf 7 v = false :=
      fun v => matchAt_of_len_le buf 7 v (by omega)
    simp [analyzeVideoMetadata, isMP4Header, isAVIHeader, isWebMHeader, h3, h7]
  · simp [detectCorruption, h]

/-- Witness for C10: a 3-byte buffer carrying a truncated "RIF" prefix
still sniffs as `unknown` and reports only the too-small issue. -/
theorem header_reads_out_of_range_safe_witness :
    (analyzeVideoMetadata [0x52, 0x49, 0x46] "video/avi").codec = none ∧
    detectCorruption [0x52, 0x49, 0x46] =
      { hasIssue := true, issues := [tooSmallMsg] } :=
  ⟨(header_reads_out_of_range_safe [0x52, 0x49, 0x46] "video/avi").2.1 (by norm_num),
   (header_reads_out_of_range_safe [0x52, 0x49, 0x46] "video/avi").2.2 (by norm_num)⟩

/-- Counterexample to C7 as stated: with the default `sampleCount = 10` and
a 5-byte buffer, `chunkSize = floor(5/10) = 0`, so all ten offsets collapse
to 0 — the offsets are *not* strictly increasing. -/
theorem sampleVideoData_offsets_collapse :
    (sampleVideoData [1, 2, 3, 4, 5] 10).map Sample.offset = List.replicate 10 0 ∧
    ¬ List.Pairwise (fun a b : Sample => a.offset < b.offset)
        (sampleVideoData [1, 2, 3, 4, 5] 10) := by
  constructor
  · norm_num [sampleVideoData, List.range_succ]
    decide
  · intro h
    norm_num [sampleVideoData, List.range_succ] at h

/-- C7 (amended): whenever `0 < sampleCount ≤ byteLength` — precisely the
buffers for which `chunkSize ≥ 1`, which excludes the degenerate collapse
above — `sampleVideoData` returns exactly `sampleCount` records, their
offsets are `i * floor(byteLength/sampleCount)` (evenly spaced) and
strictly increasing, and every variance is non-negative. -/
theorem sampleVideoData_spec (buf : List ℕ) (n : ℕ) (hn : 0 < n)
    (hlen : n ≤ buf.length) :
    (sampleVideoData buf n).length = n ∧
    (sampleVideoData buf n).map Sample.offset =
      (List.range n).map (fun i => i * (buf.length / n)) ∧
    List.Pairwise (fun a b : Sample => a.offset < b.offset)
      (sampleVideoData buf n) ∧
    (∀ s ∈ sampleVideoData buf n, 0 ≤ s.variance) := by
  have hc : 0 < buf.length / n := Nat.div_pos hlen hn
  refine ⟨by simp [sampleVideoData], ?_, ?_, ?_⟩
  · simp [sampleVideoData, List.map_map]
  · unfold sampleVideoData
    rw [List.pairwise_map]
    exact (List.pairwise_lt_range n).imp
      (fun hij => (Nat.mul_lt_mul_right hc).mpr hij)
  · intro s hs
    obtain ⟨i, _, rfl⟩ := List.mem_map.mp hs
    refine div_nonneg (List.sum_nonneg ?_) (by positivity)
    intro x hx
    obtain ⟨b, _, rfl⟩ := List.mem_map.mp hx
    positivity

/-- Witness for C7 (amended): a 20-byte buffer with the default 10 samples
gives offsets 0, 2, 4, …, 18. -/
theorem sampleVideoData_spec_witness :
    (sampleVideoData (List.replicate 20 7) 10).map Sample.offset =
      (List.range 10).map (fun i => i * 2) := by
  have h := (sampleVideoData_spec (List.replicate 20 7) 10 (by norm_num)
    (by simp)).2.1
  simpa using h

/-- Counterexample to C8 as stated: with a single sample there are no
consecutive deltas, and the src/aiDetector.js `extractFeatures` computes
`Math.max()` of an empty spread — `-Infinity` (`⊥` here), not the 0 the
claim asserts for both implementations. -/
theorem extractFeaturesHF_single_sample_max :
    (extractFeaturesHF [{ offset := 0, mean := 0, variance := 5, data := [] }]
      mdMP4).maxVarianceChange = ⊥ ∧
    (⊥ : WithBot ℚ) ≠ ((0 : ℚ) : WithBot ℚ) := by
  constructor
  · simp [extractFeaturesHF, varianceChanges]
  · simp

/-- C8 (amended): with at least one consecutive delta, both
`extractFeatures` implementations set `varianceVolatility` to the
arithmetic mean of the absolute consecutive variance deltas and
`maxVarianceChange` to their maximum (an element of the delta list that
bounds every delta).  With fewer than 2 samples the src/index.js copy's
guard yields `maxVarianceChange = 0`, while the src/aiDetector.js copy
yields `-Infinity` (`⊥`). -/
theorem extractFeatures_spec (samples : List Sample) (md : Metadata) :
    (varianceChanges (samples.map Sample.variance) ≠ [] →
      (extractFeatures samples md).varianceVolatility =
        some ((varianceChanges (samples.map Sample.variance)).sum /
          (varianceChanges (samples.map Sample.variance)).length) ∧
      (extractFeaturesHF samples md).varianceVolatility =
        some ((varianceChanges (samples.map Sample.variance)).sum /
          (varianceChanges (samples.map Sample.variance)).length) ∧
      (extractFeatures samples md).maxVarianceChange ∈
        varianceChanges (samples.map Sample.variance) ∧
      (∀ d ∈ varianceChanges (samples.map Sample.variance),
        d ≤ (extractFeatures samples md).maxVarianceChange) ∧
      (∀ d ∈ varianceChanges (samples.map Sample.variance),
        (d : WithBot ℚ) ≤ (extractFeaturesHF samples md).maxVarianceChange)) ∧
    (varianceChanges (samples.map Sample.variance) = [] →
      (extractFeatures samples md).maxVarianceChange = 0 ∧
      (extractFeaturesHF samples md).maxVarianceChange = ⊥) := by
  constructor
  · intro hne
    obtain ⟨m, hm⟩ :=
      Option.ne_none_iff_exists'.mp (List.maximum_ne_bot_of_ne_nil hne)
    have hmem := List.maximum_mem hm
    have hunbot :
        (varianceChanges (samples.map Sample.variance)).maximum.unbot' 0 = m := by
      rw [hm]; rfl
    refine ⟨?_, ?_, ?_, ?_, ?_⟩
    · simp [extractFeatures, List.isEmpty_iff, hne]
    · simp [extractFeaturesHF, List.isEmpty_iff, hne]
    · simpa [extractFeatures, hunbot] using hmem
    · intro d hd
      have := List.le_maximum_of_mem hd hm
      simpa [extractFeatures, hunbot] using WithBot.coe_le_coe.mp (by simpa [hm] using this)
    · intro d hd
      simpa [extractFeaturesHF] using List.le_maximum_of_mem' hd
  · intro hnil
    refine ⟨?_, ?_⟩
    · simp [extractFeatures, hnil]
    · simp [extractFeaturesHF, hnil]

/-- Witness for C8 (amended): with the two-sample fixture the single delta
is 20000 and both copies report it as the maximum. -/
theorem extractFeatures_spec_witness :
    (extractFeatures samples2 mdMP4).varianceVolatility = some 20000 ∧
    (extractFeaturesHF samples2 mdMP4).maxVarianceChange = ((20000 : ℚ) : WithBot ℚ) := by
  have h := (extractFeatures_spec samples2 mdMP4).1
    (by norm_num [samples2, varianceChanges])
  constructor
  · rw [h.1]
    norm_num [samples2, varianceChanges]
  · have h20 : (20000 : ℚ) ∈ varianceChanges (samples2.map Sample.variance) := by
      norm_num [samples2, varianceChanges]
    have hle := h.2.2.2.2 20000 h20
    have hmem := h.2.2.1
    norm_num [samples2, varianceChanges] at hmem
    norm_num [extractFeaturesHF, samples2, varianceChanges]

/-- C9: the src/index.js rule engine sets `glitch` exactly when
`varianceVolatility > 5000` (a `NaN` volatility — `none` — compares
false), `stutter` exactly when `maxVarianceChange > 10000`, `corruption`
exactly when the codec is unrecognised, appends the corresponding detail
for each flag raised (plus the fixed frame-analysis hint), and never sets
`colorShift` or `missingPerson`. -/
theorem ruleBasedDetection_spec (f : FeaturesIdx) (md : Metadata) :
    ((ruleBasedDetection f md).glitch = true ↔
      ∃ v, f.varianceVolatility = some v ∧ 5000 < v) ∧
    ((ruleBasedDetection f md).stutter = true ↔
      10000 < f.maxVarianceChange) ∧
    ((ruleBasedDetection f md).corruption = true ↔ md.codec = none) ∧
    (ruleBasedDetection f md).colorShift = false ∧
    (ruleBasedDetection f md).missingPerson = false ∧
    (ruleBasedDetection f md).details =
      (if (ruleBasedDetection f md).glitch then [glitchMsg] else []) ++
      (if (ruleBasedDetection f md).corruption then [unknownCodecMsg] else []) ++
      (if (ruleBasedDetection f md).stutter then [stutterMsg] else []) ++
      [frameHintMsgIdx] := by
  refine ⟨?_, ?_, ?_, rfl, rfl, rfl⟩
  · cases h : f.varianceVolatility <;>
      simp [ruleBasedDetection, jsGtO, h]
  · simp [ruleBasedDetection]
  · cases h : md.codec <;> simp [ruleBasedDetection, h]

/-- Witness for C9: the two-sample fixture's features (volatility 20000,
max change 20000) with an unrecognised codec raise glitch, stutter and
corruption and leave colorShift false. -/
theorem ruleBasedDetection_spec_witness :
    (ruleBasedDetection (extractFeatures samples2
      { size := 2048, mimeType := "video/x-msvideo", codec := none })
      { size := 2048, mimeType := "video/x-msvideo", codec := none }).glitch = true ∧
    (ruleBasedDetection (extractFeatures samples2
      { size := 2048, mimeType := "video/x-msvideo", codec := none })
      { size := 2048, mimeType := "video/x-msvideo", codec := none }).corruption = true ∧
    (ruleBasedDetection (extractFeatures samples2
      { size := 2048, mimeType := "video/x-msvideo", codec := none })
      { size := 2048, mimeType := "video/x-msvideo", codec := none }).colorShift = false := by
  have h := ruleBasedDetection_spec (extractFeatures samples2
    { size := 2048, mimeType := "video/x-msvideo", codec := none })
    { size := 2048, mimeType := "video/x-msvideo", codec := none }
  refine ⟨h.1.mpr ⟨20000, ?_, by norm_num⟩, h.2.2.1.mpr rfl, h.2.2.2.2.1⟩
  norm_num [extractFeatures, samples2, varianceChanges]

/-- C5: the aggregator raises an issue kind exactly when the number of
successful frames reporting it strictly exceeds 30% of the frame count. -/
theorem aggregateFrameResults_threshold (frameResults : List FrameResult)
    (_hne : frameResults ≠ []) :
    ((aggregateFrameResults frameResults).glitch = true ↔
      (frameResults.length : ℚ) * 0.3 <
        (issueCount frameResults IssueVector.glitch : ℚ)) ∧
    ((aggregateFrameResults frameResults).corruption = true ↔
      (frameResults.length : ℚ) * 0.3 <
        (issueCount frameResults IssueVector.corruption : ℚ)) ∧
    ((aggregateFrameResults frameResults).stutter = true ↔
      (frameResults.length : ℚ) * 0.3 <
        (issueCount frameResults IssueVector.stutter : ℚ)) ∧
    ((aggregateFrameResults frameResults).colorShift = true ↔
      (frameResults.length : ℚ) * 0.3 <
        (issueCount frameResults IssueVector.colorShift : ℚ)) ∧
    ((aggregateFrameResults frameResults).missingPerson = true ↔
      (frameResults.length : ℚ) * 0.3 <
        (issueCount frameResults IssueVector.missingPerson : ℚ)) := by
  simp [aggregateFrameResults]

/-- Witness for C5 (the claim's 10-frame example): 3 of 10 frames
reporting glitch is exactly 30% — not over the threshold, so `glitch`
stays false; 4 of 10 crosses it, so `glitch` becomes true. -/
theorem aggregateFrameResults_threshold_witness :
    (aggregateFrameResults tenFramesThreeGlitch).glitch = false ∧
    (aggregateFrameResults tenFramesFourGlitch).glitch = true := by
  have h3 := (aggregateFrameResults_threshold tenFramesThreeGlitch (by decide)).1
  have h4 := (aggregateFrameResults_threshold tenFramesFourGlitch (by decide)).1
  constructor
  · have : ¬ ((tenFramesThreeGlitch.length : ℚ) * 0.3 <
        (issueCount tenFramesThreeGlitch IssueVector.glitch : ℚ)) := by
      norm_num [tenFramesThreeGlitch, issueCount, glitchFrame, IssueVector.allFalse]
    exact Bool.eq_false_iff.mpr (fun hg => this (h3.mp hg))
  · exact h4.mpr (by
      norm_num [tenFramesFourGlitch, issueCount, glitchFrame, IssueVector.allFalse])

/-- Counterexample to C3 as stated: a single-object classifier output
whose label is exactly "error" contains the keyword "error", yet the
parser's single-object branch only looks for "glitch" and "corrupt", so
no flag is raised. -/
theorem parseModelOutput_obj_error_not_flagged :
    parseModelOutput (ModelOutput.obj (some "error")) = IssueVector.allFalse ∧
    jsIncludes (jsToLower "error") "error" = true := by
  constructor
  · decide
  · decide

/-- C3 (amended): the parser lower-cases label text and raises `glitch`
and `corruption` together — for a sequence of items, exactly when the
space-joined lower-cased labels contain "glitch", "corrupt" or "error";
for a single object with a (JS-truthy) label, exactly when its lower-cased
text contains "glitch" or "corrupt" (the keyword "error" is not consulted
on this branch).  `stutter`, `colorShift` and `missingPerson` are false
for every frame. -/
theorem parseModelOutput_spec (m : ModelOutput) :
    (parseModelOutput m).stutter = false ∧
    (parseModelOutput m).colorShift = false ∧
    (parseModelOutput m).missingPerson = false ∧
    (parseModelOutput m).corruption = (parseModelOutput m).glitch ∧
    (∀ items, m = ModelOutput.arr items →
      ((parseModelOutput m).glitch = true ↔
        (jsIncludes (joinSpace (items.map labelText)) "glitch" = true ∨
         jsIncludes (joinSpace (items.map labelText)) "corrupt" = true ∨
         jsIncludes (joinSpace (items.map labelText)) "error" = true))) ∧
    (∀ l, m = ModelOutput.obj (some l) → l ≠ "" →
      ((parseModelOutput m).glitch = true ↔
        (jsIncludes (jsToLower l) "glitch" = true ∨
         jsIncludes (jsToLower l) "corrupt" = true))) ∧
    (m = ModelOutput.obj (some "") → parseModelOutput m = IssueVector.allFalse) ∧
    (m = ModelOutput.obj none → parseModelOutput m = IssueVector.allFalse) := by
  match m with
  | ModelOutput.arr items =>
    refine ⟨rfl, rfl, rfl, rfl, ?_, ?_, ?_, ?_⟩
    · rintro its ⟨rfl⟩
      simp [parseModelOutput, IssueVector.allFalse, Bool.or_eq_true, or_assoc]
    · rintro l ⟨⟩
    · rintro ⟨⟩
    · rintro ⟨⟩
  | ModelOutput.obj none =>
    refine ⟨rfl, rfl, rfl, rfl, ?_, ?_, ?_, fun _ => rfl⟩
    · rintro its ⟨⟩
    · rintro l ⟨⟩
    · rintro ⟨⟩
  | ModelOutput.obj (some l) =>
    by_cases hl : l = ""
    · subst hl
      refine ⟨rfl, rfl, rfl, rfl, ?_, ?_, fun _ => rfl, ?_⟩
      · rintro its ⟨⟩
      · rintro l' ⟨rfl⟩ hne
        exact absurd rfl hne
      · rintro ⟨⟩
    · refine ⟨?_, ?_, ?_, ?_, ?_, ?_, ?_, ?_⟩
      · simp [parseModelOutput, hl, IssueVector.allFalse]
      · simp [parseModelOutput, hl, IssueVector.allFalse]
      · simp [parseModelOutput, hl, IssueVector.allFalse]
      · simp [parseModelOutput, hl, IssueVector.allFalse]
      · rintro its ⟨⟩
      · rintro l' ⟨rfl⟩ _
        simp [parseModelOutput, hl, IssueVector.allFalse, Bool.or_eq_true]
      · rintro ⟨rfl⟩
        exact absurd rfl hl
      · rintro ⟨⟩

/-- Witness for C3 (amended): a sequence containing the label
"Corrupted image" raises glitch and corruption together. -/
theorem parseModelOutput_spec_witness :
    (parseModelOutput (ModelOutput.arr [{ label := some "Corrupted image", score := 1 }])).glitch
      = true ∧
    (parseModelOutput (ModelOutput.arr [{ label := some "Corrupted image", score := 1 }])).corruption
      = true ∧
    (parseModelOutput (ModelOutput.arr [{ label := some "Corrupted image", score := 1 }])).stutter
      = false := by
  have h := parseModelOutput_spec
    (ModelOutput.arr [{ label := some "Corrupted image", score := 1 }])
  have hg : (parseModelOutput
      (ModelOutput.arr [{ label := some "Corrupted image", score := 1 }])).glitch = true :=
    (h.2.2.2.2.1 _ rfl).mpr (Or.inr (Or.inl (by decide)))
  exact ⟨hg, by rw [h.2.2.2.1, hg], h.1⟩

/-- C4: with the Hugging Face capability, an API key, frames supplied and
every per-frame classification failing (transient 503 or otherwise), every
failed frame is dropped (`validResults` is empty), the batch still
completes, the AI contributes no issues — the returned flags are exactly
the rule engine's — and the returned confidence is the capability's 0.7,
not the 0.5 whole-attempt fallback. -/
theorem detectWithHuggingFace_all_frames_dropped
    (classify : ℕ → Except HFError ModelOutput) (samples : List Sample)
    (md : Metadata) (numFrames : ℕ) (_h0 : 0 < numFrames)
    (hfail : ∀ i, ∃ e, classify i = Except.error e) :
    ((List.range (min numFrames 5)).map
      (fun i => (analyzeFrameWithHF classify i).toOption)).filterMap id = [] ∧
    detectWithHuggingFace classify samples md numFrames true =
      { glitch := (ruleBasedDetectionHF (extractFeaturesHF samples md) md).glitch
        corruption := (ruleBasedDetectionHF (extractFeaturesHF samples md) md).corruption
        stutter := (ruleBasedDetectionHF (extractFeaturesHF samples md) md).stutter
        colorShift := (ruleBasedDetectionHF (extractFeaturesHF samples md) md).colorShift
        missingPerson := (ruleBasedDetectionHF (extractFeaturesHF samples md) md).missingPerson
        details := (ruleBasedDetectionHF (extractFeaturesHF samples md) md).details ++
          [hfClosingMsg1, hfClosingMsg2]
        confidence := 0.7 } ∧
    (0.7 : ℚ) ≠ 0.5 := by
  refine ⟨?_, rfl, by norm_num⟩
  rw [List.filterMap_eq_nil_iff]
  intro o ho
  obtain ⟨i, _, rfl⟩ := List.mem_map.mp ho
  obtain ⟨e, he⟩ := hfail i
  simp [analyzeFrameWithHF, he, Except.map, Except.toOption]

/-- Witness for C4: five frames, a capability failing each of them with
the transient "model warming up" condition. -/
theorem detectWithHuggingFace_all_frames_dropped_witness :
    ((List.range (min 5 5)).map
      (fun i => (analyzeFrameWithHF (fun _ => Except.error HFError.transient) i).toOption)).filterMap
        id = [] ∧
    detectWithHuggingFace (fun _ => Except.error HFError.transient) samples2 mdMP4 5 true =
      { glitch := (ruleBasedDetectionHF (extractFeaturesHF samples2 mdMP4) mdMP4).glitch
        corruption := (ruleBasedDetectionHF (extractFeaturesHF samples2 mdMP4) mdMP4).corruption
        stutter := (ruleBasedDetectionHF (extractFeaturesHF samples2 mdMP4) mdMP4).stutter
        colorShift := (ruleBasedDetectionHF (extractFeaturesHF samples2 mdMP4) mdMP4).colorShift
        missingPerson := (ruleBasedDetectionHF (extractFeaturesHF samples2 mdMP4) mdMP4).missingPerson
        details := (ruleBasedDetectionHF (extractFeaturesHF samples2 mdMP4) mdMP4).details ++
          [hfClosingMsg1, hfClosingMsg2]
        confidence := 0.7 } ∧
    (0.7 : ℚ) ≠ 0.5 :=
  detectWithHuggingFace_all_frames_dropped (fun _ => Except.error HFError.transient)
    samples2 mdMP4 5 (by norm_num) (fun _ => ⟨HFError.transient, rfl⟩)

/-- C2 evaluated at its failing input: key configured, one frame supplied,
its classification succeeding (with a "glitch" label) — yet the returned
confidence is 0.7, because `results.confidence = 0.7` runs after, and
clobbers, the `Math.max(confidence, 0.85)` floor the code had just set on
the successful-frames path. -/
theorem detectWithHuggingFace_confidence_overwritten :
    ((analyzeFrameWithHF classifyGlitch 0).toOption).isSome = true ∧
    (detectWithHuggingFace classifyGlitch [] mdMP4 1 true).confidence = 0.7 ∧
    ¬ ((0.85 : ℚ) ≤ (detectWithHuggingFace classifyGlitch [] mdMP4 1 true).confidence) := by
  refine ⟨rfl, rfl, ?_⟩
  intro h
  norm_num [detectWithHuggingFace] at h

/-- C1 evaluated at its failing input: on the two-sample fixture the rule
engine raises `glitch` and `stutter`, the corruption check is clean, yet
the orchestrator's report carries neither flag — `detectVideoIssues`
merges `hfResult.issues || {}`, and `hfResult` has no `issues` field (its
flags are top-level), so the merge is a no-op and only the
corruption-check flag ever reaches the final vector (last conjunct). -/
theorem detectVideoIssues_drops_rule_flags :
    (ruleBasedDetection (extractFeatures samples2 mdMP4) mdMP4).glitch = true ∧
    (ruleBasedDetection (extractFeatures samples2 mdMP4) mdMP4).stutter = true ∧
    (detectVideoIssues classifyFail samples2 mdMP4 cleanReport false false 0 true).issues =
      IssueVector.allFalse ∧
    (detectVideoIssues classifyFail samples2 mdMP4 tooSmallReport false false 0 true).issues =
      { IssueVector.allFalse with corruption := true } := by
  refine ⟨?_, ?_, rfl, rfl⟩
  · norm_num [ruleBasedDetection, extractFeatures, samples2, mdMP4, varianceChanges, jsGtO]
  · norm_num [ruleBasedDetection, extractFeatures, samples2, mdMP4, varianceChanges,
      List.maximum]
    show (10000 : ℚ) < (20000 : ℚ)
    norm_num
